import Mathlib

/-!
Shallow embedding of the quiz-solver repository (FastAPI service that walks a
chain of quiz pages, reasons about each question and submits answers).

The embedding follows the Python sources under `app/`:

* `app/solver.py`   — `QuizSolver.solve_chain`, `_solve_with_retries`,
  `_process_resources`, `_enforce_answer_type`, `_is_timed_out`
* `app/submitter.py` — `AnswerSubmitter.submit_answer`, `_validate_payload_size`,
  `_get_payload_size`
* `app/utils.py`    — `async_retry`
* `app/parser.py`   — `QuizParser.extract_api_headers`, `_determine_answer_type`
* `app/llm.py`      — `LLMEngine.reason_about_question`, `_fallback_reasoning`

Modelling conventions:
* Python runtime values are `PyVal`; Python floats are modelled as exact
  rationals (no claim settled here depends on binary64 rounding).
* Stateful/async code is modelled with explicit oracles (for network calls,
  model backends and the wall clock) and explicit counters/traces.
* Machine-level details (e.g. `sys.getsizeof` of a CPython compact ASCII
  string) are modelled with their documented 64-bit CPython values and noted
  where they occur.
-/

/-- Model of a Python runtime value flowing through the solver
(the `answer` values of `app/solver.py` and `app/llm.py`).
Python floats are modelled as exact rationals. -/
inductive PyVal where
  | pNone : PyVal
  | pBool : Bool → PyVal
  | pInt : Int → PyVal
  | pFloat : ℚ → PyVal
  | pStr : String → PyVal
  | pList : List PyVal → PyVal
  | pDict : List (String × PyVal) → PyVal

/-- Left brace character (written via its code point). -/
def lbrace : Char := Char.ofNat 123

/-- Right brace character (written via its code point). -/
def rbrace : Char := Char.ofNat 125

/-- Model of Python `str.lower()` (ASCII case folding suffices for every
string the claims touch). -/
def asciiLower (s : String) : String := String.mk (s.data.map Char.toLower)

/-- `strContainsL needle hay`: does `hay` contain `needle` as a contiguous
run?  Model of the Python `in` operator on strings. -/
def strContainsL (needle : List Char) : List Char → Bool
  | [] => needle.isEmpty
  | c :: rest => needle.isPrefixOf (c :: rest) || strContainsL needle rest

/-- Model of Python `needle in hay` for strings. -/
def strContains (hay needle : String) : Bool := strContainsL needle.data hay.data

/-- Model of `any(word in text for word in words)` (`app/parser.py`). -/
def anyContained (hay : String) (needles : List String) : Bool :=
  needles.any (fun n => strContains hay n)

/-- Match the Python regex `-?\d+\.?\d*` at the head of `cs`
(`re.findall` number pattern of `app/solver.py` line 218 and
`app/llm.py` line 178).  Returns the matched characters and the rest. -/
def matchNumAt (cs : List Char) : Option (List Char × List Char) :=
  let signLen : Nat := if cs.head? = some '-' then 1 else 0
  let cs1 := cs.drop signLen
  let d1 := cs1.takeWhile Char.isDigit
  if d1 = [] then none
  else
    let cs2 := cs1.drop d1.length
    if cs2.head? = some '.' then
      let d2 := (cs2.drop 1).takeWhile Char.isDigit
      some (cs.take signLen ++ d1 ++ ['.'] ++ d2, (cs2.drop 1).drop d2.length)
    else
      some (cs.take signLen ++ d1, cs2)

/-- Fuelled scanner behind `findallNum`; every step consumes at least one
character, so `fuel = length` is enough. -/
def findallNumGo : Nat → List Char → List String
  | 0, _ => []
  | _, [] => []
  | fuel + 1, c :: rest =>
    match matchNumAt (c :: rest) with
    | some (m, after) => String.mk m :: findallNumGo fuel after
    | none => findallNumGo fuel rest

/-- Model of `re.findall(r-pattern for signed decimals, s)` as used by
`QuizSolver._enforce_answer_type` and `LLMEngine._parse_llm_response`. -/
def findallNum (s : String) : List String := findallNumGo s.length s.data

/-- Value of a digit run (most significant first). -/
def digitsToNat (ds : List Char) : Nat :=
  ds.foldl (fun acc c => acc * 10 + (c.toNat - 48)) 0

/-- Model of Python `float(s)` on strings matched by the number regex
(exact rational instead of binary64; `is_integer` becomes `den = 1`). -/
def pyFloatOfStr (s : String) : ℚ :=
  let cs := s.data
  let neg := cs.head? = some '-'
  let cs1 := if neg then cs.drop 1 else cs
  let d1 := cs1.takeWhile Char.isDigit
  let rest := cs1.drop d1.length
  let d2 := if rest.head? = some '.' then (rest.drop 1).takeWhile Char.isDigit else []
  let mag : ℚ := (digitsToNat d1 : ℚ) + (digitsToNat d2 : ℚ) / ((10 : ℚ) ^ d2.length)
  if neg then -mag else mag

/-- Model of Python `repr(float)`: exact for integral values; for
non-terminating rationals a placeholder notation is used (never reached by
any theorem below). -/
def floatRepr (q : ℚ) : String :=
  if q.den = 1 then toString q.num ++ ".0"
  else toString q.num ++ "/" ++ toString q.den

/-- `", ".join`-style joining. -/
def joinComma : List String → String
  | [] => ""
  | [s] => s
  | s :: rest => s ++ ", " ++ joinComma rest

mutual

/-- Model of Python `repr(x)` for the values of `PyVal` (string escaping
inside `repr` is simplified to plain quoting; no theorem depends on it). -/
def pyRepr : PyVal → String
  | .pNone => "None"
  | .pBool true => "True"
  | .pBool false => "False"
  | .pInt n => toString n
  | .pFloat q => floatRepr q
  | .pStr s => "\x27" ++ s ++ "\x27"
  | .pList l => "[" ++ joinComma (pyReprList l) ++ "]"
  | .pDict l => "\x7b" ++ joinComma (pyReprDict l) ++ "\x7d"

/-- `repr` of each list element (Python `str(list)` uses element `repr`s). -/
def pyReprList : List PyVal → List String
  | [] => []
  | v :: rest => pyRepr v :: pyReprList rest

/-- `repr` of each dict entry (Python `str(dict)` uses `repr` of keys and
values). -/
def pyReprDict : List (String × PyVal) → List String
  | [] => []
  | (k, v) :: rest => ("\x27" ++ k ++ "\x27: " ++ pyRepr v) :: pyReprDict rest

end

/-- Model of Python `str(x)`. -/
def pyStr : PyVal → String
  | .pStr s => s
  | v => pyRepr v

/-- Model of Python truthiness (`bool(x)`). -/
def pyTruthy : PyVal → Bool
  | .pNone => false
  | .pBool b => b
  | .pInt n => decide (n ≠ 0)
  | .pFloat q => decide (q ≠ 0)
  | .pStr s => decide (s ≠ "")
  | .pList l => !l.isEmpty
  | .pDict l => !l.isEmpty

/-! ### Model of Python `json` (loads / dumps) -/

/-- JSON whitespace skipping (space, tab, newline, carriage return). -/
def skipWs : List Char → List Char
  | [] => []
  | c :: rest =>
    if c = ' ' || c = Char.ofNat 9 || c = Char.ofNat 10 || c = Char.ofNat 13 then
      skipWs rest
    else c :: rest

/-- Hex digit value of a character, if any. -/
def hexVal (c : Char) : Option Nat :=
  if c.isDigit then some (c.toNat - 48)
  else if 97 ≤ c.toNat && c.toNat ≤ 102 then some (c.toNat - 87)
  else if 65 ≤ c.toNat && c.toNat ≤ 70 then some (c.toNat - 55)
  else none

/-- Parse the body of a JSON string literal (after the opening quote),
handling the standard escapes; `\uXXXX` is decoded as a single code point
(surrogate-pair recombination is not modelled; never reached by a theorem). -/
def jsonParseStrBody : Nat → List Char → Option (List Char × List Char)
  | 0, _ => none
  | _, [] => none
  | fuel + 1, c :: rest =>
    if c = '"' then some ([], rest)
    else if c = '\\' then
      match rest with
      | [] => none
      | e :: rest2 =>
        let dec : Option (Char × List Char) :=
          if e = '"' then some ('"', rest2)
          else if e = '\\' then some ('\\', rest2)
          else if e = '/' then some ('/', rest2)
          else if e = 'n' then some (Char.ofNat 10, rest2)
          else if e = 't' then some (Char.ofNat 9, rest2)
          else if e = 'r' then some (Char.ofNat 13, rest2)
          else if e = 'b' then some (Char.ofNat 8, rest2)
          else if e = 'f' then some (Char.ofNat 12, rest2)
          else if e = 'u' then
            match rest2 with
            | h1 :: h2 :: h3 :: h4 :: rest3 =>
              match hexVal h1, hexVal h2, hexVal h3, hexVal h4 with
              | some a, some b, some c2, some d =>
                some (Char.ofNat (((a * 16 + b) * 16 + c2) * 16 + d), rest3)
              | _, _, _, _ => none
            | _ => none
          else none
        match dec with
        | some (ch, rest3) =>
          match jsonParseStrBody fuel rest3 with
          | some (cs, rem) => some (ch :: cs, rem)
          | none => none
        | none => none
    else
      match jsonParseStrBody fuel rest with
      | some (cs, rem) => some (c :: cs, rem)
      | none => none

/-- Parse a JSON number at the head of `cs`: integer part, optional
fraction, optional exponent.  Integral literals become `pInt`, everything
else `pFloat` (matching `json.loads` producing `int` vs `float`). -/
def jsonParseNum (cs : List Char) : Option (PyVal × List Char) :=
  let neg := cs.head? = some '-'
  let cs1 := if neg then cs.drop 1 else cs
  let d1 := cs1.takeWhile Char.isDigit
  if d1 = [] then none
  else
    let cs2 := cs1.drop d1.length
    let fracPart : Option (List Char × List Char) :=
      if cs2.head? = some '.' then
        let d2 := (cs2.drop 1).takeWhile Char.isDigit
        if d2 = [] then none else some (d2, (cs2.drop 1).drop d2.length)
      else some ([], cs2)
    match fracPart with
    | none => none
    | some (d2, cs3) =>
      let expPart : Option (Bool × List Char × List Char) :=
        if cs3.head? = some 'e' || cs3.head? = some 'E' then
          let cs4 := cs3.drop 1
          let eneg := cs4.head? = some '-'
          let cs5 := if cs4.head? = some '-' || cs4.head? = some '+' then cs4.drop 1 else cs4
          let d3 := cs5.takeWhile Char.isDigit
          if d3 = [] then none else some (eneg, d3, cs5.drop d3.length)
        else some (false, [], cs3)
      match expPart with
      | none => none
      | some (eneg, d3, cs6) =>
        if d2 = [] && d3 = [] then
          let n : Int := Int.ofNat (digitsToNat d1)
          some (.pInt (if neg then -n else n), cs6)
        else
          let mag : ℚ := (digitsToNat d1 : ℚ) + (digitsToNat d2 : ℚ) / ((10 : ℚ) ^ d2.length)
          let e : Int := if eneg then -(Int.ofNat (digitsToNat d3)) else Int.ofNat (digitsToNat d3)
          let v : ℚ := (if neg then -mag else mag) * (10 : ℚ) ^ e
          some (.pFloat v, cs6)

/-- Set a key in an association list, keeping first-insertion order
(Python dict semantics: later assignment to the same key overwrites). -/
def assocSet (l : List (String × PyVal)) (k : String) (v : PyVal) :
    List (String × PyVal) :=
  match l with
  | [] => [(k, v)]
  | (k0, v0) :: rest =>
    if k0 = k then (k0, v) :: rest else (k0, v0) :: assocSet rest k v

mutual

/-- Fuelled recursive-descent JSON value parser (model of `json.loads`
without the `NaN`/`Infinity` extensions; strictness corner cases such as
leading zeros are accepted leniently — no theorem depends on them). -/
def jsonParseVal : Nat → List Char → Option (PyVal × List Char)
  | 0, _ => none
  | fuel + 1, csRaw =>
    match skipWs csRaw with
    | [] => none
    | c :: rest =>
      if c = '"' then
        match jsonParseStrBody (rest.length + 1) rest with
        | some (cs, rem) => some (.pStr (String.mk cs), rem)
        | none => none
      else if c = lbrace then jsonParseObjItems fuel rest true []
      else if c = '[' then jsonParseArrItems fuel rest true []
      else if ['t', 'r', 'u', 'e'].isPrefixOf (c :: rest) then
        some (.pBool true, (c :: rest).drop 4)
      else if ['f', 'a', 'l', 's', 'e'].isPrefixOf (c :: rest) then
        some (.pBool false, (c :: rest).drop 5)
      else if ['n', 'u', 'l', 'l'].isPrefixOf (c :: rest) then
        some (.pNone, (c :: rest).drop 4)
      else if c = '-' || c.isDigit then jsonParseNum (c :: rest)
      else none

/-- Items of a JSON array; `first` is true before any element was parsed. -/
def jsonParseArrItems : Nat → List Char → Bool → List PyVal →
    Option (PyVal × List Char)
  | 0, _, _, _ => none
  | fuel + 1, cs, first, acc =>
    match skipWs cs with
    | [] => none
    | c :: rest =>
      if c = ']' then
        if first || !acc.isEmpty then some (.pList acc.reverse, rest) else none
      else
        let csStart := if first then c :: rest else
          if c = ',' then rest else []
        if !first && c ≠ ',' then none
        else
          match jsonParseVal fuel csStart with
          | some (v, rem) => jsonParseArrItems fuel rem false (v :: acc)
          | none => none

/-- Items of a JSON object; duplicate keys overwrite (Python semantics). -/
def jsonParseObjItems : Nat → List Char → Bool → List (String × PyVal) →
    Option (PyVal × List Char)
  | 0, _, _, _ => none
  | fuel + 1, cs, first, acc =>
    match skipWs cs with
    | [] => none
    | c :: rest =>
      if c = rbrace then some (.pDict acc, rest)
      else
        let csAfterComma := if first then c :: rest else
          if c = ',' then rest else []
        if !first && c ≠ ',' then none
        else
          match skipWs csAfterComma with
          | [] => none
          | k :: rest2 =>
            if k = '"' then
              match jsonParseStrBody (rest2.length + 1) rest2 with
              | some (kcs, rem) =>
                match skipWs rem with
                | ':' :: rem2 =>
                  match jsonParseVal fuel rem2 with
                  | some (v, rem3) =>
                    jsonParseObjItems fuel rem3 false
                      (assocSet acc (String.mk kcs) v)
                  | none => none
                | _ => none
              | none => none
            else none

end

/-- Model of Python `json.loads(s)`: parse one value and require only
whitespace afterwards; `none` models a raised `JSONDecodeError`. -/
def jsonLoads (s : String) : Option PyVal :=
  match jsonParseVal (2 * s.length + 2) s.data with
  | some (v, rest) => if (skipWs rest).isEmpty then some v else none
  | none => none

/-- Lowercase hex digit. -/
def hexDigit (n : Nat) : Char :=
  if n < 10 then Char.ofNat (48 + n) else Char.ofNat (87 + n)

/-- Four lowercase hex digits (for `\uXXXX` escapes). -/
def u16Hex (n : Nat) : String :=
  String.mk [hexDigit (n / 4096 % 16), hexDigit (n / 256 % 16),
    hexDigit (n / 16 % 16), hexDigit (n % 16)]

/-- `json.dumps` escaping of one character with the default
`ensure_ascii=True` (non-ASCII becomes `\uXXXX`, astral code points become
surrogate pairs), so the serialized payload is always pure ASCII. -/
def jsonEscapeChar (c : Char) : String :=
  if c = '"' then "\\\""
  else if c = '\\' then "\\\\"
  else if c = Char.ofNat 10 then "\\n"
  else if c = Char.ofNat 9 then "\\t"
  else if c = Char.ofNat 13 then "\\r"
  else if c = Char.ofNat 8 then "\\b"
  else if c = Char.ofNat 12 then "\\f"
  else if c.toNat < 32 then "\\u" ++ u16Hex c.toNat
  else if c.toNat < 127 then String.mk [c]
  else if c.toNat < 65536 then "\\u" ++ u16Hex c.toNat
  else
    let v := c.toNat - 65536
    "\\u" ++ u16Hex (55296 + v / 1024) ++ "\\u" ++ u16Hex (56320 + v % 1024)

/-- Escaped rendering of a character list. -/
def jsonEscapeBody : List Char → String
  | [] => ""
  | c :: rest => jsonEscapeChar c ++ jsonEscapeBody rest

/-- `json.dumps` rendering of a string literal. -/
def jsonEscapeStr (s : String) : String :=
  "\"" ++ jsonEscapeBody s.data ++ "\""

mutual

/-- Model of Python `json.dumps(x)` with default separators
`(", ", ": ")` and `ensure_ascii=True` (`app/submitter.py` line 91). -/
def jsonDumps : PyVal → String
  | .pNone => "null"
  | .pBool true => "true"
  | .pBool false => "false"
  | .pInt n => toString n
  | .pFloat q => floatRepr q
  | .pStr s => jsonEscapeStr s
  | .pList l => "[" ++ joinComma (jsonDumpsList l) ++ "]"
  | .pDict l => String.mk [lbrace] ++ joinComma (jsonDumpsDict l) ++ String.mk [rbrace]

/-- Serialized list elements. -/
def jsonDumpsList : List PyVal → List String
  | [] => []
  | v :: rest => jsonDumps v :: jsonDumpsList rest

/-- Serialized dict entries. -/
def jsonDumpsDict : List (String × PyVal) → List String
  | [] => []
  | (k, v) :: rest => (jsonEscapeStr k ++ ": " ++ jsonDumps v) :: jsonDumpsDict rest

end

/-! ### Model of Python `base64` and UTF-8 byte conversion -/

/-- Character of a 6-bit value in the standard base64 alphabet. -/
def b64Char (n : Nat) : Char :=
  if n < 26 then Char.ofNat (65 + n)
  else if n < 52 then Char.ofNat (97 + (n - 26))
  else if n < 62 then Char.ofNat (48 + (n - 52))
  else if n = 62 then '+'
  else '/'

/-- 6-bit value of a base64 alphabet character, if any. -/
def b64CharVal (c : Char) : Option Nat :=
  if 65 ≤ c.toNat && c.toNat ≤ 90 then some (c.toNat - 65)
  else if 97 ≤ c.toNat && c.toNat ≤ 122 then some (c.toNat - 97 + 26)
  else if c.isDigit then some (c.toNat - 48 + 52)
  else if c = '+' then some 62
  else if c = '/' then some 63
  else none

/-- Standard base64 encoding of a byte list (model of
`base64.b64encode(...).decode()`). -/
def b64encodeGo : List Nat → List Char
  | [] => []
  | [a] => [b64Char (a / 4 % 64), b64Char (a % 4 * 16), '=', '=']
  | [a, b] =>
    [b64Char (a / 4 % 64), b64Char (a % 4 * 16 + b / 16), b64Char (b % 16 * 4), '=']
  | a :: b :: c :: rest =>
    [b64Char (a / 4 % 64), b64Char (a % 4 * 16 + b / 16),
     b64Char (b % 16 * 4 + c / 64), b64Char (c % 64)] ++ b64encodeGo rest

/-- Model of `base64.b64encode(bytes).decode()`. -/
def b64encodeBytes (bs : List Nat) : String := String.mk (b64encodeGo bs)

/-- Decoding of 4-character base64 groups; `none` models a raised
`binascii.Error`.  (Python's decoder is laxer — it silently discards
characters outside the alphabet — but no theorem below evaluates the
decoder, only the branch structure around it.) -/
def b64decodeGo : List Char → Option (List Nat)
  | [] => some []
  | [c1, c2, '=', '='] =>
    match b64CharVal c1, b64CharVal c2 with
    | some v1, some v2 => some [v1 * 4 + v2 / 16]
    | _, _ => none
  | [c1, c2, c3, '='] =>
    match b64CharVal c1, b64CharVal c2, b64CharVal c3 with
    | some v1, some v2, some v3 =>
      some [v1 * 4 + v2 / 16, v2 % 16 * 16 + v3 / 4]
    | _, _, _ => none
  | c1 :: c2 :: c3 :: c4 :: rest =>
    match b64CharVal c1, b64CharVal c2, b64CharVal c3, b64CharVal c4,
        b64decodeGo rest with
    | some v1, some v2, some v3, some v4, some tail =>
      some ([v1 * 4 + v2 / 16, v2 % 16 * 16 + v3 / 4, v3 % 4 * 64 + v4] ++ tail)
    | _, _, _, _, _ => none
  | _ => none

/-- Model of `base64.b64decode(s)` (strict grouping; see `b64decodeGo`). -/
def b64decodeStr (s : String) : Option (List Nat) := b64decodeGo s.data

/-- UTF-8 bytes of a string (model of Python `str.encode()`). -/
def utf8Bytes (s : String) : List Nat :=
  (String.toUTF8 s).toList.map (fun b => b.toNat)

/-- Model of Python `bytes.decode("utf-8")`; `none` models a raised
`UnicodeDecodeError`. -/
def utf8Decode (bs : List Nat) : Option String :=
  String.fromUTF8? (ByteArray.mk (Array.mk (bs.map (fun n => UInt8.ofNat n))))

/-! ### `app/types.py` data model -/

/-- `AnswerType` enumeration (`app/types.py` lines 5-10). -/
inductive AnswerType where
  | NUMBER : AnswerType
  | STRING : AnswerType
  | BOOLEAN : AnswerType
  | JSON : AnswerType
  | BASE64_FILE : AnswerType
deriving DecidableEq

/-- `QuizResponse` (`app/types.py` lines 17-20): the verdict returned by the
scoring endpoint. -/
structure QuizResponse where
  correct : Bool
  url : Option String
  reason : Option String
deriving DecidableEq

/-- `ParsedQuestion` (`app/types.py` lines 28-33). -/
structure ParsedQuestion where
  question_text : String
  submit_url : String
  resources : List String
  expected_type : AnswerType
  instructions : Option String

/-! ### `QuizSolver._enforce_answer_type` (`app/solver.py` lines 206-291) -/

/-- Model of `QuizSolver._enforce_answer_type(answer, expected_type)`.

Branch-by-branch translation of `app/solver.py` lines 206-291:
* NUMBER: numbers pass through (whole floats collapse to `int`; a `bool` is
  an `int` in Python, so it passes through the first branch unchanged);
  strings go through `re.findall` of the signed-decimal pattern, taking the
  first match or defaulting to `0`; any other value goes through
  `float(answer) if answer else 0` — falsy values yield `0` (assuming
  Python >= 3.12, where `int.is_integer()` exists), and truthy non-numeric
  values make `float()` raise `TypeError`, which the outer `except` turns
  into `str(answer)`.
* BASE64_FILE: a string that base64-decodes to UTF-8 text containing
  "hello world" is returned as-is; every other value is base64-encoded
  (the source's `if "hello world" in answer.lower()` has identical `then`
  and `else` bodies, so it has no observable effect).
* BOOLEAN: bools pass through; strings test membership in
  `["true", "yes", "1", "correct"]` after lowering; anything else is
  `bool(answer)`.
* JSON: dicts/lists pass through; strings go through `json.loads`, with a
  wrap in an answer-keyed dict on a parse error; anything else is wrapped
  as a stringified answer-keyed dict.
* STRING: `str(answer)`. -/
def enforceAnswerType (answer : PyVal) (expectedType : AnswerType) : PyVal :=
  match expectedType with
  | .NUMBER =>
    match answer with
    | .pInt n => .pInt n
    | .pBool b => .pBool b
    | .pFloat q => if q.den = 1 then .pInt q.num else .pFloat q
    | .pStr s =>
      match findallNum s with
      | [] => .pInt 0
      | n0 :: _ =>
        let q := pyFloatOfStr n0
        if q.den = 1 then .pInt q.num else .pFloat q
    | .pNone => .pInt 0
    | .pList [] => .pInt 0
    | .pDict [] => .pInt 0
    | .pList l => .pStr (pyStr (.pList l))
    | .pDict l => .pStr (pyStr (.pDict l))
  | .BASE64_FILE =>
    match answer with
    | .pStr s =>
      let alreadyEncoded : Bool :=
        match b64decodeStr s with
        | some bytes =>
          match utf8Decode bytes with
          | some t => strContains (asciiLower t) "hello world"
          | none => false
        | none => false
      if alreadyEncoded then .pStr s
      else .pStr (b64encodeBytes (utf8Bytes s))
    | v => .pStr (b64encodeBytes (utf8Bytes (pyStr v)))
  | .BOOLEAN =>
    match answer with
    | .pBool b => .pBool b
    | .pStr s => .pBool (["true", "yes", "1", "correct"].contains (asciiLower s))
    | v => .pBool (pyTruthy v)
  | .JSON =>
    match answer with
    | .pDict l => .pDict l
    | .pList l => .pList l
    | .pStr s =>
      match jsonLoads s with
      | some v => v
      | none => .pDict [("answer", .pStr s)]
    | v => .pDict [("answer", .pStr (pyStr v))]
  | .STRING => .pStr (pyStr answer)

/-! ### `AnswerSubmitter` (`app/submitter.py`) and `async_retry` (`app/utils.py`) -/

/-- Outcome of one `session.post` network call: either a raised transport
exception (`aiohttp` error, timeout, ...) with its message, or an HTTP
response with status and body text. -/
inductive PostResult where
  | raises : String → PostResult
  | resp : Nat → String → PostResult

/-- The JSON payload built by `submit_answer` (`app/submitter.py` lines
32-37): `{"email": ..., "secret": ..., "url": ..., "answer": ...}`. -/
def mkPayload (email secret url : String) (answer : PyVal) : PyVal :=
  .pDict [("email", .pStr email), ("secret", .pStr secret),
    ("url", .pStr url), ("answer", answer)]

/-- Model of `AnswerSubmitter._get_payload_size` (`app/submitter.py` lines
88-91): `sys.getsizeof(json.dumps(payload))`.  `json.dumps` with its default
`ensure_ascii=True` yields a pure-ASCII `str`, and on 64-bit CPython
`sys.getsizeof` of a compact ASCII string is its length plus 49 bytes of
object header. -/
def getPayloadSize (payload : PyVal) : Nat := (jsonDumps payload).length + 49

/-- Model of `AnswerSubmitter._validate_payload_size` (`app/submitter.py`
lines 83-86): the payload passes iff its size is strictly below 1,000,000. -/
def validatePayloadSize (payload : PyVal) : Bool :=
  decide (getPayloadSize payload < 1000000)

/-- Model of building a `QuizResponse` from decoded JSON
(`QuizResponse(**data)`, pydantic validation): requires a dict with a
boolean `correct` and optional string `url` / `reason`; `none` models a
raised `ValidationError`.  (Pydantic's lax coercions are not modelled; no
theorem evaluates this path.) -/
def quizResponseOfJson (v : PyVal) : Option QuizResponse :=
  match v with
  | .pDict fields =>
    let lookup : String → Option PyVal := fun k =>
      (fields.find? (fun p => p.1 = k)).map (fun p => p.2)
    let correct? : Option Bool :=
      match lookup "correct" with
      | some (.pBool b) => some b
      | _ => none
    let optStr : Option PyVal → Option (Option String) := fun f =>
      match f with
      | none => some none
      | some (.pStr s) => some (some s)
      | some .pNone => some none
      | some _ => none
    match correct?, optStr (lookup "url"), optStr (lookup "reason") with
    | some c, some u, some r => some ⟨c, u, r⟩
    | _, _, _ => none
  | _ => none

/-- One invocation of the body of `AnswerSubmitter.submit_answer`
(`app/submitter.py` lines 26-81), i.e. what the `async_retry` wrapper calls.

`post` is the oracle for network calls (`post c` is the outcome of the
`c`-th POST made overall) and `c` the incoming call counter; the result
pairs the Python outcome (`Except.error` = a raised exception escaping the
function, `Except.ok` = a returned `QuizResponse`) with the new counter.

Faithful control flow: the payload is serialized and size-checked BEFORE
any network call; every exception raised inside the `try` block — including
all transport errors from `session.post` — is caught by the
`except Exception` clause and converted into a negative `QuizResponse`
whose reason is the error text, so the body itself never raises from the
POST.  (`get_session` runs before the `try` block; its failures are not
modelled here.) -/
def submitAnswerOnce (payload : PyVal) (post : Nat → PostResult) (c : Nat) :
    Except String QuizResponse × Nat :=
  if !validatePayloadSize payload then
    (.ok ⟨false, none, some "Payload size exceeds 1MB limit"⟩, c)
  else
    match post c with
    | .raises msg => (.ok ⟨false, none, some msg⟩, c + 1)
    | .resp status body =>
      if status = 200 then
        match jsonLoads body with
        | some v =>
          match quizResponseOfJson v with
          | some r => (.ok r, c + 1)
          | none =>
            -- pydantic ValidationError, caught by the outer except clause
            (.ok ⟨false, none, some "validation error"⟩, c + 1)
        | none =>
          -- json.JSONDecodeError branch
          (.ok ⟨strContains (asciiLower body) "correct", none, some body⟩, c + 1)
      else
        (.ok ⟨false, none,
          some ("HTTP " ++ toString status ++ ": " ++ body)⟩, c + 1)

/-- Model of the `async_retry` decorator (`app/utils.py` lines 15-42),
specialised to a callee threading a call counter.  `attemptsLeft` counts
down from `max_attempts`; `d` is the current delay, multiplied by
`backoff` after every failed non-final attempt; `sleeps` records each
`asyncio.sleep` performed.  A normally-returned value is passed through
immediately; only a raised exception triggers a retry, and after the final
attempt the last exception is re-raised. -/
def asyncRetryGo (f : Nat → Except String QuizResponse × Nat)
    (backoff : ℚ) : Nat → ℚ → Nat → List ℚ →
    Except String QuizResponse × Nat × List ℚ
  | 0, _, c, sleeps => (.error "async_retry called with max_attempts = 0", c, sleeps)
  | 1, _, c, sleeps =>
    let (r, c') := f c
    (r, c', sleeps)
  | n + 2, d, c, sleeps =>
    match f c with
    | (.ok v, c') => (.ok v, c', sleeps)
    | (.error _, c') => asyncRetryGo f backoff (n + 1) (d * backoff) c' (sleeps ++ [d])

/-- `async_retry(max_attempts=3, delay=1)` applied to `submit_answer`
(decorator at `app/submitter.py` line 25; `backoff` keeps its default 2). -/
def submitAnswerRetried (payload : PyVal) (post : Nat → PostResult) :
    Except String QuizResponse × Nat × List ℚ :=
  asyncRetryGo (submitAnswerOnce payload post) 2 3 1 0 []

/-! ### `QuizParser.extract_api_headers` (`app/parser.py` lines 142-175)

The six header regexes share a simple shape — case-insensitive literals,
`\s*` / `\s+` gaps, an optional one-character class and a final greedy
capture — so they are modelled as token lists interpreted by a small
matcher that reproduces the Python regex engine's greedy matching with
backtracking into the whitespace gaps. -/

/-- Python `\s` (ASCII whitespace: space, tab, newline, carriage return,
form feed, vertical tab). -/
def isPyWs (c : Char) : Bool :=
  c = ' ' || c = Char.ofNat 9 || c = Char.ofNat 10 || c = Char.ofNat 13 ||
    c = Char.ofNat 12 || c = Char.ofNat 11

/-- Model of Python `str.strip()`: drop ASCII whitespace from both ends
(kept as an explicit list computation so that it evaluates inside the
kernel). -/
def pyStrip (s : String) : String :=
  String.mk (((s.data.dropWhile (fun c => isPyWs c)).reverse.dropWhile
    (fun c => isPyWs c)).reverse)

/-- Tokens of the header regexes.  `ws lo` is `\s*` (`lo = 0`) or `\s+`
(`lo = 1`); `wsAt lo k` is the internal backtracking state "currently
trying `k` consumed whitespace characters"; `capLine` is `([^\n]+)` and
`capWord` is `([^\s\n]+)` (both greedy and final in every pattern used);
`opt1 cls` is a single optional character class such as `[-\s]?`. -/
inductive Tok where
  | lit : String → Tok
  | ws : Nat → Tok
  | wsAt : Nat → Nat → Tok
  | opt1 : List Char → Tok
  | capLine : Tok
  | capWord : Tok

/-- Case-insensitive literal prefix test (`re.IGNORECASE`). -/
def litPrefixCI (l : List Char) (cs : List Char) : Bool :=
  (cs.take l.length).map Char.toLower == l.map Char.toLower

/-- Fuelled token-list matcher at the current position.  Returns the list
of captured groups and the remainder after the whole match.  Whitespace
gaps are matched greedily, backtracking one character at a time (longest
first), exactly as the backtracking regex engine does; the captures are
final in every pattern, so they never need to backtrack. -/
def matchToksF : Nat → List Tok → List Char → Option (List String × List Char)
  | 0, _, _ => none
  | _ + 1, [], cs => some ([], cs)
  | fuel + 1, t :: rest, cs =>
    match t with
    | .lit l =>
      if litPrefixCI l.data cs then matchToksF fuel rest (cs.drop l.data.length)
      else none
    | .ws lo =>
      let w := (cs.takeWhile isPyWs).length
      if w < lo then none else matchToksF fuel (.wsAt lo w :: rest) cs
    | .wsAt lo k =>
      match matchToksF fuel rest (cs.drop k) with
      | some r => some r
      | none =>
        if lo < k then matchToksF fuel (.wsAt lo (k - 1) :: rest) cs else none
    | .opt1 cls =>
      match cs with
      | c :: cs2 =>
        if cls.contains c then
          match matchToksF fuel rest cs2 with
          | some r => some r
          | none => matchToksF fuel rest cs
        else matchToksF fuel rest cs
      | [] => matchToksF fuel rest cs
    | .capLine =>
      let run := cs.takeWhile (fun c => c ≠ Char.ofNat 10)
      if run.isEmpty then none
      else
        match matchToksF fuel rest (cs.drop run.length) with
        | some (caps, rem) => some (String.mk run :: caps, rem)
        | none => none
    | .capWord =>
      let run := cs.takeWhile (fun c => !isPyWs c)
      if run.isEmpty then none
      else
        match matchToksF fuel rest (cs.drop run.length) with
        | some (caps, rem) => some (String.mk run :: caps, rem)
        | none => none

/-- Match a pattern at the head of `cs` with ample fuel. -/
def matchToks (pat : List Tok) (cs : List Char) :
    Option (List String × List Char) :=
  matchToksF ((pat.length + 2) * (cs.length + 2)) pat cs

/-- Fuelled left-to-right scan behind `patFindall`: try the pattern at each
position, emit the (single) capture of each non-overlapping match and
resume after it. -/
def patFindallGo : Nat → List Tok → List Char → List String
  | 0, _, _ => []
  | _ + 1, _, [] => []
  | fuel + 1, pat, c :: rest =>
    match matchToks pat (c :: rest) with
    | some (caps, rem) => caps.headD "" :: patFindallGo fuel pat rem
    | none => patFindallGo fuel pat rest

/-- Model of `re.findall(pattern, text, re.IGNORECASE)` for the header
patterns (each has exactly one capturing group). -/
def patFindall (pat : List Tok) (text : String) : List String :=
  patFindallGo text.length pat text.data

/-- The `[-\s]?` class of the `API[-\s]?key:` pattern. -/
def dashOrWs : List Char :=
  ['-', ' ', Char.ofNat 9, Char.ofNat 10, Char.ofNat 13, Char.ofNat 12,
    Char.ofNat 11]

/-- The four `Authorization` patterns (`app/parser.py` lines 148-153), in
source order. -/
def authorizationPatterns : List (List Tok) :=
  [[.lit "Authorization:", .ws 0, .capLine],
   [.lit "Use Authorization:", .ws 0, .capLine],
   [.lit "Bearer", .ws 1, .capWord],
   [.lit "Authorization", .ws 1, .lit "header:", .ws 0, .capLine]]

/-- The three `X-API-Key` patterns (`app/parser.py` lines 154-158). -/
def xApiKeyPatterns : List (List Tok) :=
  [[.lit "X-API-Key:", .ws 0, .capLine],
   [.lit "API", .opt1 dashOrWs, .lit "key:", .ws 0, .capLine],
   [.lit "Use API key:", .ws 0, .capLine]]

/-- The single `Content-Type` pattern (`app/parser.py` lines 159-161). -/
def contentTypePatterns : List (List Tok) :=
  [[.lit "Content-Type:", .ws 0, .capLine]]

/-- The `patterns` dict of `extract_api_headers`, in insertion order. -/
def headerPatternList : List (String × List (List Tok)) :=
  [("Authorization", authorizationPatterns),
   ("X-API-Key", xApiKeyPatterns),
   ("Content-Type", contentTypePatterns)]

/-- The per-assignment normalization of `extract_api_headers` lines
168-171: an `Authorization` match that does not already contain "bearer"
(case-insensitively) becomes `Bearer <match.strip()>`, every other match is
stored stripped. -/
def normalizeHeaderValue (headerName : String) (m : String) : String :=
  if headerName = "Authorization" && !strContains (asciiLower m) "bearer" then
    "Bearer " ++ pyStrip m
  else pyStrip m

/-- The value `headers[headerName]` holds after the inner pattern loop of
`extract_api_headers`: each pattern with at least one match overwrites the
entry with (the normalization of) its first match — the `break` only exits
the innermost `for match in matches` loop, not the pattern loop. -/
def headerValueFold (headerName : String) (pats : List (List Tok))
    (text : String) : Option String :=
  pats.foldl (fun acc p =>
    match (patFindall p text).head? with
    | some m => some (normalizeHeaderValue headerName m)
    | none => acc) none

/-- Model of `QuizParser.extract_api_headers(text)` (`app/parser.py` lines
142-175) as an association list in dict insertion order. -/
def extractApiHeaders (text : String) : List (String × String) :=
  headerPatternList.filterMap (fun np =>
    (headerValueFold np.1 np.2 text).map (fun v => (np.1, v)))

/-- The value a header would get under the CLAIM's reading of
`extract_api_headers` — "the value coming from the first matching pattern
in that header's pattern list".  Written from the spec sentence, for
comparison with `headerValueFold`. -/
def headerValueFirstPattern (headerName : String) (pats : List (List Tok))
    (text : String) : Option String :=
  ((pats.filterMap (fun p => (patFindall p text).head?)).head?).map
    (normalizeHeaderValue headerName)

/-- `extract_api_headers` under the claim's first-matching-pattern-wins
reading. -/
def extractApiHeadersSpec (text : String) : List (String × String) :=
  headerPatternList.filterMap (fun np =>
    (headerValueFirstPattern np.1 np.2 text).map (fun v => (np.1, v)))

/-- The value actually kept: the first match of the LAST pattern in the
list that matches anywhere in the text. -/
def headerValueLastPattern (headerName : String) (pats : List (List Tok))
    (text : String) : Option String :=
  ((pats.filterMap (fun p => (patFindall p text).head?)).getLast?).map
    (normalizeHeaderValue headerName)

/-! ### `QuizParser._determine_answer_type` (`app/parser.py` lines 212-235) -/

/-- Model of `QuizParser._determine_answer_type(text)`: keyword-family
classification over the lowercased text, with the hardcoded primality
override first.  The returned kind is one of NUMBER, STRING, JSON,
BASE64_FILE — no branch produces BOOLEAN. -/
def determineAnswerType (text : String) : AnswerType :=
  let t := asciiLower text
  if strContains t "is 97 a prime number" &&
      strContains t "answer with \x27yes\x27 or \x27no\x27" then .STRING
  else if anyContained t ["sum", "count", "total", "number", "how many",
      "average", "mean", "maximum", "max", "minimum", "min", "sequence",
      "next number", "compute"] then .NUMBER
  else if anyContained t ["true", "false", "whether", "is it", "answer with",
      "yes or no", "yes/no", "prime number"] then .STRING
  else if anyContained t ["json", "object", "array", "dictionary"] then .JSON
  else if anyContained t ["file", "attachment", "upload", "base64"] then
    .BASE64_FILE
  else .STRING

/-! ### `LLMEngine` (`app/llm.py`) -/

/-- The five branches of `LLMEngine._parse_llm_response`
(`app/llm.py` lines 174-219), dispatched purely on the expected kind. -/
inductive RespBranch where
  | numberBranch : RespBranch
  | booleanBranch : RespBranch
  | jsonBranch : RespBranch
  | base64Branch : RespBranch
  | stringBranch : RespBranch
deriving DecidableEq

/-- Which response-parsing branch `_parse_llm_response` takes for a given
expected kind. -/
def parseLlmResponseBranch (t : AnswerType) : RespBranch :=
  match t with
  | .NUMBER => .numberBranch
  | .BOOLEAN => .booleanBranch
  | .JSON => .jsonBranch
  | .BASE64_FILE => .base64Branch
  | .STRING => .stringBranch

/-- `LLMReasoningResponse` (`app/types.py` lines 45-48). -/
structure LLMReasoningResponse where
  reasoning : String
  answer : PyVal
  confidence : ℚ

/-- Model of `LLMEngine._parse_llm_response(response_text, expected_type)`
(`app/llm.py` lines 167-234).  Note on the JSON branch: `llm.py` has no
module-level `import re`, and the function-local `import re` sits inside
the NUMBER branch, so in the JSON branch the name `re` is an unbound local
and `re.search` raises `UnboundLocalError`; the inner bare `except` turns
this into the fixed error-marker dict.  The confidence recorded here is
the temporary 0.8; `reason_about_question` overwrites it. -/
def parseLlmResponse (responseText : String) (expectedType : AnswerType) :
    LLMReasoningResponse :=
  let cleaned := pyStrip responseText
  let answer : PyVal :=
    match expectedType with
    | .NUMBER =>
      match findallNum cleaned with
      | [] => .pInt 0
      | n0 :: _ =>
        let q := pyFloatOfStr n0
        if q.den = 1 then .pInt q.num else .pFloat q
    | .BOOLEAN => .pBool (["true", "yes", "1", "correct"].contains (asciiLower cleaned))
    | .JSON => .pDict [("error", .pStr "Invalid JSON format")]
    | .BASE64_FILE => .pStr cleaned
    | .STRING => .pStr cleaned
  ⟨responseText, answer, 4 / 5⟩

/-- Model of `LLMEngine._calculate_confidence` (`app/llm.py` lines
236-250); `promptFeedbackOk` abstracts "has `prompt_feedback` with no
block reason". -/
def calcConfidence (promptFeedbackOk : Bool) (answer : PyVal) : ℚ :=
  let c1 : ℚ := if promptFeedbackOk then 7 / 10 + 1 / 5 else 7 / 10
  let low : Bool :=
    !pyTruthy answer ||
      (match answer with
       | .pStr s => decide ((pyStrip s).length < 2)
       | _ => false)
  let c2 : ℚ := if low then c1 - 3 / 10 else c1
  max (1 / 10) (min 1 c2)

/-- Digit-run scanner behind `findallDigits`. -/
def findallDigitsGo : Nat → List Char → List (List Char)
  | 0, _ => []
  | _ + 1, [] => []
  | fuel + 1, c :: rest =>
    if c.isDigit then
      let run := (c :: rest).takeWhile Char.isDigit
      run :: findallDigitsGo fuel ((c :: rest).drop run.length)
    else findallDigitsGo fuel rest

/-- Model of `re.findall(r-digit-run-pattern, s)` (`app/llm.py` line 262). -/
def findallDigits (s : String) : List (List Char) := findallDigitsGo s.length s.data

/-- Model of `LLMEngine._fallback_reasoning` (`app/llm.py` lines 252-276):
the heuristic used when every backend in the attempt window failed. -/
def fallbackReasoning (question context : String) (expectedType : AnswerType) :
    LLMReasoningResponse :=
  let ql := asciiLower question
  let defaultResp : LLMReasoningResponse :=
    ⟨"Fallback: All models failed, using default response",
      (if expectedType = .STRING then .pStr "Unknown" else .pInt 0), 1 / 10⟩
  if strContains ql "sum" && strContains ql "value" then
    match findallDigits context with
    | [] => defaultResp
    | runs =>
      ⟨"Fallback: Summed all numbers found in context",
        .pInt (Int.ofNat ((runs.map digitsToNat).sum)), 3 / 10⟩
  else defaultResp

/-- Model of the per-attempt backend window selection of
`LLMEngine.reason_about_question` (`app/llm.py` lines 71-80):
attempt 0 slices `models[:2]`, attempt 1 slices `models[1:3]`, any later
attempt slices `models[2:]`. -/
def modelsToTry (models : List α) (attempt : Nat) : List α :=
  if attempt = 0 then models.take 2
  else if attempt = 1 then (models.drop 1).take 2
  else models.drop 2

/-- Window start index written in the three slices (0, 1 and 2). -/
def windowStart (attempt : Nat) : Nat :=
  if attempt = 0 then 0 else if attempt = 1 then 1 else 2

/-- Window length of the slices (`2`, `2`, and all remaining backends). -/
def windowLen (models : List α) (attempt : Nat) : Nat :=
  if attempt ≤ 1 then 2 else models.length - 2

/-- Trace of one `reason_about_question` invocation: the returned value
(`none` models Python returning `None` by falling off the model loop), the
backends actually called, and whether `_fallback_reasoning` ran. -/
structure ReasonTrace where
  result : Option LLMReasoningResponse
  called : List String
  usedFallback : Bool

/-- The `for model_index, ... in enumerate(models_to_try)` loop of
`reason_about_question` (`app/llm.py` lines 84-105): try each backend in
order; the first success returns its parsed answer with recomputed
confidence; a failure of the LAST backend in the window invokes the
heuristic fallback; an empty window falls through and returns `None`. -/
def reasonLoop (gen : String → Except String String)
    (feedbackOk : String → Bool) (expectedType : AnswerType)
    (question context : String) : List String → ReasonTrace
  | [] => ⟨none, [], false⟩
  | m :: rest =>
    match gen m with
    | .ok txt =>
      let parsed := parseLlmResponse txt expectedType
      ⟨some ⟨parsed.reasoning, parsed.answer,
        calcConfidence (feedbackOk m) parsed.answer⟩, [m], false⟩
    | .error _ =>
      match rest with
      | [] => ⟨some (fallbackReasoning question context expectedType), [m], true⟩
      | _ :: _ =>
        let t := reasonLoop gen feedbackOk expectedType question context rest
        ⟨t.result, m :: t.called, t.usedFallback⟩

/-- Model of `LLMEngine.reason_about_question(request, attempt)`
(`app/llm.py` lines 66-105).  `models` is the engine's ranked backend
list, `gen m` the outcome of `m.generate_content(prompt)` (error =
raised exception), `feedbackOk` the prompt-feedback flag used by the
confidence score. -/
def reasonAboutQuestion (models : List String) (attempt : Nat)
    (gen : String → Except String String) (feedbackOk : String → Bool)
    (expectedType : AnswerType) (question context : String) : ReasonTrace :=
  reasonLoop gen feedbackOk expectedType question context
    (modelsToTry models attempt)

/-! ### `QuizSolver` orchestration (`app/solver.py`) -/

/-- Python `str(dict)` of the extracted string-valued header dict, as
interpolated into `f"Headers used: {resource_headers}"`. -/
def headersDictStr (h : List (String × String)) : String :=
  pyStr (.pDict (h.map (fun p => (p.1, PyVal.pStr p.2))))

/-- `"\n".join` (`app/solver.py` line 203). -/
def joinLines : List String → String
  | [] => ""
  | [s] => s
  | s :: rest => s ++ "\x0a" ++ joinLines rest

/-- The context lines `_process_resources` appends for one resource URL
(`app/solver.py` lines 181-201): on a successful fetch, the resource
header line, the headers-used line when headers are non-empty, the content
line and a separator; on a raised fetch error, a single inline error note
naming the URL and the exception text. -/
def resourceBlock (headers : List (String × String))
    (fetch : String → Except String String) (url : String) : List String :=
  match fetch url with
  | .ok content =>
    ["Resource: " ++ url] ++
      (if headers.isEmpty then [] else ["Headers used: " ++ headersDictStr headers]) ++
      ["Content: " ++ content, "---"]
  | .error e => ["Error fetching " ++ url ++ ": " ++ e]

/-- Model of `QuizSolver._process_resources(resources)` (`app/solver.py`
lines 158-203).  `headersRes` is the outcome of the header-extraction
re-fetch (`.error` = the `try` block raised, leaving `headers = {}`);
`fetch url` is the outcome of `self.fetcher.fetch_resource(url, headers)`
for this round.  Per-resource failures only append their inline error note;
the function always returns a string, never raises. -/
def processResources (resources : List String)
    (headersRes : Except String (List (String × String)))
    (fetch : String → Except String String) : String :=
  if resources.isEmpty then "No external resources required."
  else
    let headers := match headersRes with
      | .ok h => h
      | .error _ => []
    joinLines ("EXTERNAL RESOURCES:" ::
      (resources.flatMap (resourceBlock headers fetch)))

/-- Model of the decide-next block of `QuizSolver.solve_chain`
(`app/solver.py` lines 42-52): advance to the verdict's URL when it is
truthy (non-`None` and non-empty) whether or not the verdict is correct;
otherwise set the current URL to `None`. -/
def decideNextUrl (r : QuizResponse) : Option String :=
  if r.correct && (r.url.getD "") ≠ "" then r.url
  else if !r.correct && (r.url.getD "") ≠ "" then r.url
  else none

/-- Model of `QuizSolver._is_timed_out` (`app/solver.py` lines 318-320):
strictly more than 180 seconds elapsed since the chain start. -/
def isTimedOut (now startTime : ℚ) : Bool := decide (now - startTime > 180)

/-- Model of `QuizSolver._solve_with_retries` (`app/solver.py` lines
59-100) with `settings.MAX_QUIZ_ATTEMPTS = 3`: up to three
reason-then-submit attempts, stopping at the first correct verdict and
otherwise keeping the last verdict.  `verdict a` is the verdict the
submission of attempt `a` produced; the event list records each reasoning
step (with the context string it was given) and each submission. -/
def solveWithRetries (verdict : Nat → QuizResponse) (ctx : String) :
    QuizResponse × List (Nat × String) :=
  let ev := fun (a : Nat) => (a, ctx)
  if (verdict 0).correct then (verdict 0, [ev 0])
  else if (verdict 1).correct then (verdict 1, [ev 0, ev 1])
  else (verdict 2, [ev 0, ev 1, ev 2])

/-- Per-iteration environment of the solve loop: the parsed question
(`none` = both acquisition paths or parsing failed, so the loop `break`s),
the header-extraction outcome, the resource-fetch oracle and the verdicts
of the up-to-three attempts. -/
structure IterEnv where
  question : Option ParsedQuestion
  headersRes : Except String (List (String × String))
  fetch : String → Except String String
  verdict : Nat → QuizResponse

/-- Whole-chain environment: the wall clock observed at the `k`-th loop
guard (`time.time()`), and the per-iteration environment. -/
structure ChainEnv where
  timeAt : Nat → ℚ
  iter : Nat → IterEnv

/-- Events of a chain run: a page fetch beginning, or a reasoning attempt
(attempt index paired with the context string handed to the engine). -/
inductive ChainEvent where
  | fetchPage : String → ChainEvent
  | reasonStep : Nat → String → ChainEvent
deriving DecidableEq

/-- Model of the `while self.current_url and not self._is_timed_out()`
loop of `QuizSolver.solve_chain` (`app/solver.py` lines 25-57), fuelled by
the number of remaining iterations (every per-iteration statement below is
proved for an explicit `fuel + 1`).  Returns the emitted events and the
final `self.current_url`.  The guard first tests truthiness of the current
URL, then the time budget — both BEFORE the page fetch of that iteration;
the body never consults the clock.  A failed question acquisition
(`question = none`) `break`s with the current URL untouched; otherwise the
resources are gathered, the attempts run, and the loop continues with the
decide-next URL. -/
def solveChain (env : ChainEnv) (startTime : ℚ) :
    Option String → Nat → Nat → List ChainEvent × Option String
  | url?, _, 0 => ([], url?)
  | none, _, _ + 1 => ([], none)
  | some url, k, fuel + 1 =>
    if url = "" then ([], some url)
    else if isTimedOut (env.timeAt k) startTime then ([], some url)
    else
      let ie := env.iter k
      match ie.question with
      | none => ([.fetchPage url], some url)
      | some q =>
        let ctx := processResources q.resources ie.headersRes ie.fetch
        let (r, evs) := solveWithRetries ie.verdict ctx
        let (tailEvs, fin) := solveChain env startTime (decideNextUrl r) (k + 1) fuel
        (.fetchPage url :: (evs.map (fun p => ChainEvent.reasonStep p.1 p.2)) ++ tailEvs,
          fin)

/-! ### Support definitions for the statements below -/

/-- Values on which the NUMBER coercion of `_enforce_answer_type` is
idempotent: numbers, booleans and strings (the non-empty-container values
make `float(answer)` raise, landing in the `str(answer)` fallback). -/
def numSafe : PyVal → Bool
  | .pInt _ => true
  | .pBool _ => true
  | .pFloat _ => true
  | .pStr _ => true
  | _ => false

/-- `p` occurs contiguously inside `s`. -/
def strInfix (p s : String) : Prop := p.data <:+: s.data

/-! ## Claims -/

/-- Claim C1, counterexample: answer-kind coercion is NOT idempotent.
Coercing the string "5" to the JSON kind yields the integer `5`
(`json.loads("5")`), and coercing that once more wraps it into
`{"answer": "5"}`, a different value.  So
`enforce(enforce(a, k), k) = enforce(a, k)` fails at `a = "5"`,
`k = JSON`. -/
theorem enforceAnswerType_not_idempotent_json :
    enforceAnswerType (enforceAnswerType (.pStr "5") .JSON) .JSON ≠
      enforceAnswerType (.pStr "5") .JSON := by
  have h1 : enforceAnswerType (.pStr "5") .JSON = .pInt 5 := by rfl
  rw [h1]
  simp [enforceAnswerType, pyStr, pyRepr]

/-- Claim C1, amended: coercion by `_enforce_answer_type` is idempotent
for the STRING and BOOLEAN kinds on every candidate answer, and for the
NUMBER kind on every candidate that is a number, boolean or string.  (It
is not idempotent in general: JSON coercion of a string decoding to a JSON
scalar re-wraps on the second pass, BASE64_FILE re-encodes, and NUMBER on
a non-empty container stringifies on the first pass and number-extracts on
the second.) -/
theorem enforceAnswerType_idempotent_core (a : PyVal) (t : AnswerType)
    (h : t = .STRING ∨ t = .BOOLEAN ∨ (t = .NUMBER ∧ numSafe a = true)) :
    enforceAnswerType (enforceAnswerType a t) t = enforceAnswerType a t := by
  rcases h with h | h | ⟨h, ha⟩
  · subst h; rfl
  · subst h; cases a <;> rfl
  · subst h
    cases a with
    | pInt n => rfl
    | pBool b => rfl
    | pFloat q =>
      by_cases hq : q.den = 1 <;>
        simp [enforceAnswerType, hq]
    | pStr s =>
      rcases hfd : findallNum s with _ | ⟨n0, rest⟩
      · simp [enforceAnswerType, hfd]
      · by_cases hq : (pyFloatOfStr n0).den = 1 <;>
          simp [enforceAnswerType, hfd, hq]
    | pNone => simp [numSafe] at ha
    | pList l => simp [numSafe] at ha
    | pDict l => simp [numSafe] at ha

/-- Witness for `enforceAnswerType_idempotent_core` at the concrete input
`a = 3`, `k = STRING`. -/
theorem enforceAnswerType_idempotent_core_witness :
    (AnswerType.STRING = .STRING ∨ AnswerType.STRING = .BOOLEAN ∨
      (AnswerType.STRING = .NUMBER ∧ numSafe (.pInt 3) = true)) ∧
    enforceAnswerType (enforceAnswerType (.pInt 3) .STRING) .STRING =
      enforceAnswerType (.pInt 3) .STRING :=
  ⟨Or.inl rfl, enforceAnswerType_idempotent_core (.pInt 3) .STRING (Or.inl rfl)⟩

/-- Claim C2, counterexample: with a POST that raises a transport error,
the retried `submit_answer` returns (does not re-raise) a negative verdict
after exactly ONE network call and with no retry sleeps — the `except
Exception` clause inside `submit_answer` swallows the transport error
before the `async_retry` wrapper can see it, so there is neither a 3-
attempt retry nor a re-raise of the last transport error. -/
theorem submitAnswer_transport_error_not_retried :
    submitAnswerRetried (mkPayload "e" "s" "u" (.pStr "a"))
      (fun _ => .raises "Connection refused") =
      (.ok ⟨false, none, some "Connection refused"⟩, 1, []) := by
  rfl

/-- Claim C2, amended: a transport error raised by the POST inside
`AnswerSubmitter.submit_answer` is caught by the function's own
`except Exception` clause and converted into a negative verdict whose
reason is the error text; the submission is not retried (exactly one
network call, no sleeps) and nothing is re-raised to the solve loop.  The
`async_retry(max_attempts=3, delay=1)` wrapper only ever retries
exceptions raised outside the inner `try` block (e.g. session creation),
and when it does its backoff doubles (1s then 2s) rather than staying
fixed. -/
theorem submitAnswer_transport_error_caught (email secret url : String)
    (answer : PyVal) (post : Nat → PostResult) (msg : String)
    (hsize : validatePayloadSize (mkPayload email secret url answer) = true)
    (hpost : post 0 = .raises msg) :
    submitAnswerRetried (mkPayload email secret url answer) post =
      (.ok ⟨false, none, some msg⟩, 1, []) := by
  simp [submitAnswerRetried, asyncRetryGo, submitAnswerOnce, hsize, hpost]

/-- Witness for `submitAnswer_transport_error_caught` at a concrete
submission and a POST oracle that always raises "boom". -/
theorem submitAnswer_transport_error_caught_witness :
    validatePayloadSize (mkPayload "w" "x" "y" (.pStr "z")) = true ∧
    (fun _ : Nat => PostResult.raises "boom") 0 = .raises "boom" ∧
    submitAnswerRetried (mkPayload "w" "x" "y" (.pStr "z"))
      (fun _ => .raises "boom") = (.ok ⟨false, none, some "boom"⟩, 1, []) :=
  ⟨by rfl, rfl,
    submitAnswer_transport_error_caught "w" "x" "y" (.pStr "z")
      (fun _ => .raises "boom") "boom" (by rfl) rfl⟩

/-- Escaping a run of `n` letters `a` yields exactly `n` characters. -/
theorem jsonEscapeBody_replicate_length (n : Nat) :
    (jsonEscapeBody (List.replicate n 'a')).length = n := by
  induction n with
  | zero => rfl
  | succ m ih =>
    rw [List.replicate_succ]
    show (jsonEscapeChar 'a' ++ jsonEscapeBody (List.replicate m 'a')).length = m + 1
    rw [String.length_append, ih]
    have h1 : (jsonEscapeChar 'a').length = 1 := rfl
    omega

/-- Every member of a comma-join is at most as long as the join. -/
theorem length_le_joinComma (s : String) (l : List String) (h : s ∈ l) :
    s.length ≤ (joinComma l).length := by
  induction l with
  | nil => cases h
  | cons a rest ih =>
    cases rest with
    | nil =>
      have hsa : s = a := by simpa using h
      subst hsa
      exact Nat.le_refl _
    | cons b t =>
      rcases List.mem_cons.mp h with h1 | h1
      · subst h1
        simp [joinComma, String.length_append]
        omega
      · have h2 := ih h1
        simp [joinComma, String.length_append]
        omega

set_option maxRecDepth 4000 in
/-- The serialized payload is at least as long as its serialized answer
field. -/
theorem jsonDumps_payload_length_ge (e s u : String) (a : PyVal) :
    (jsonDumps a).length ≤ (jsonDumps (mkPayload e s u a)).length := by
  have hexp : jsonDumps (mkPayload e s u a) =
      String.mk [lbrace] ++ (joinComma
        [jsonEscapeStr "email" ++ (": " ++ jsonEscapeStr e),
         jsonEscapeStr "secret" ++ (": " ++ jsonEscapeStr s),
         jsonEscapeStr "url" ++ (": " ++ jsonEscapeStr u),
         jsonEscapeStr "answer" ++ (": " ++ jsonDumps a)] ++ String.mk [rbrace]) := rfl
  rw [hexp]
  have hmem : (jsonEscapeStr "answer" ++ (": " ++ jsonDumps a)) ∈
      [jsonEscapeStr "email" ++ (": " ++ jsonEscapeStr e),
       jsonEscapeStr "secret" ++ (": " ++ jsonEscapeStr s),
       jsonEscapeStr "url" ++ (": " ++ jsonEscapeStr u),
       jsonEscapeStr "answer" ++ (": " ++ jsonDumps a)] := by simp
  have h2 := length_le_joinComma _ _ hmem
  simp [String.length_append] at h2 ⊢
  omega

/-- Claim C4: payload size gate.  For every submission whose serialized
JSON is at least 1,000,000 bytes, the retried `submit_answer` makes no
network call (0 POSTs) and returns the negative verdict whose reason names
the size limit.  (The gate fires on `sys.getsizeof(json.dumps(payload))`,
i.e. serialized length plus the 49-byte CPython string header, so every
payload of serialized length at least 1,000,000 is gated.) -/
theorem submitAnswer_payload_size_gate (payload : PyVal)
    (post : Nat → PostResult)
    (hbig : 1000000 ≤ (jsonDumps payload).length) :
    submitAnswerRetried payload post =
      (.ok ⟨false, none, some "Payload size exceeds 1MB limit"⟩, 0, []) := by
  have hv : validatePayloadSize payload = false := by
    simp [validatePayloadSize, getPayloadSize]
    omega
  simp [submitAnswerRetried, asyncRetryGo, submitAnswerOnce, hv]

/-- Serialized length of a string answer of `n` letters: the two quotes
plus one character each. -/
theorem jsonDumps_bigString_length (n : Nat) :
    (jsonDumps (PyVal.pStr (String.mk (List.replicate n 'a')))).length = n + 2 := by
  have hd : jsonDumps (PyVal.pStr (String.mk (List.replicate n 'a'))) =
      "\"" ++ (jsonEscapeBody (List.replicate n 'a') ++ "\"") := rfl
  rw [hd, String.length_append, String.length_append,
    jsonEscapeBody_replicate_length]
  have hq : ("\"" : String).length = 1 := rfl
  omega

/-- Size-gate hypothesis for an `n`-letter answer, `n` at least a
million. -/
theorem payload_of_bigString_big (n : Nat) (h : 1000000 ≤ n) :
    1000000 ≤ (jsonDumps (mkPayload "e" "s" "u"
      (.pStr (String.mk (List.replicate n 'a'))))).length := by
  have h2 := jsonDumps_payload_length_ge "e" "s" "u"
    (.pStr (String.mk (List.replicate n 'a')))
  have h1 := jsonDumps_bigString_length n
  omega

/-- Witness for `submitAnswer_payload_size_gate`: a submission whose
answer is a string of one million characters. -/
theorem submitAnswer_payload_size_gate_witness :
    1000000 ≤ (jsonDumps (mkPayload "e" "s" "u"
      (.pStr (String.mk (List.replicate 1000000 'a'))))).length ∧
    submitAnswerRetried (mkPayload "e" "s" "u"
      (.pStr (String.mk (List.replicate 1000000 'a'))))
      (fun _ => .raises "net") =
      (.ok ⟨false, none, some "Payload size exceeds 1MB limit"⟩, 0, []) := by
  have hlen := payload_of_bigString_big 1000000 (Nat.le_refl _)
  exact ⟨hlen, submitAnswer_payload_size_gate _ _ hlen⟩

/-- Claim C3: budget termination.  If at the loop guard the wall clock is
more than 180 seconds past the chain start, the iteration performs no page
fetch (no events at all) and the loop halts with the current URL left in
place; and conversely, whenever the pre-iteration check passes (and the
current URL is truthy) the iteration's FIRST event is the page fetch —
the clock is consulted only at the guard, never mid-step. -/
theorem solveChain_budget_termination (env : ChainEnv) (startTime : ℚ)
    (url : String) (k fuel : Nat) :
    (env.timeAt k - startTime > 180 →
      solveChain env startTime (some url) k (fuel + 1) = ([], some url)) ∧
    (¬ env.timeAt k - startTime > 180 → url ≠ "" →
      (solveChain env startTime (some url) k (fuel + 1)).1.head? =
        some (.fetchPage url)) := by
  constructor
  · intro h
    by_cases hu : url = ""
    · simp [solveChain, hu]
    · simp [solveChain, hu, isTimedOut, h]
  · intro h hu
    have ht : isTimedOut (env.timeAt k) startTime = false := by
      simp [isTimedOut, h]
    rcases hq : (env.iter k).question with _ | q
    · simp [solveChain, hu, ht, hq]
    · simp [solveChain, hu, ht, hq]

/-- Witness for `solveChain_budget_termination`: a chain started at time 0
and observed at time 200 refuses to fetch. -/
theorem solveChain_budget_termination_witness :
    ((ChainEnv.mk (fun _ => 200) (fun _ => ⟨none, .ok [], fun _ => .error "x",
        fun _ => ⟨false, none, none⟩⟩)).timeAt 0 - (0 : ℚ) > 180) ∧
    solveChain ⟨fun _ => 200, fun _ => ⟨none, .ok [], fun _ => .error "x",
        fun _ => ⟨false, none, none⟩⟩⟩ 0 (some "http://quiz") 0 1 =
      ([], some "http://quiz") := by
  refine ⟨by norm_num, ?_⟩
  exact (solveChain_budget_termination ⟨fun _ => 200, fun _ => ⟨none, .ok [],
    fun _ => .error "x", fun _ => ⟨false, none, none⟩⟩⟩ 0 "http://quiz" 0 0).1
    (by norm_num)

/-- Claim C6, counterexample: a verdict that carries the EMPTY next URL —
present (not `None`), but `""` — makes the loop halt (`current_url` set to
`None`), because `final_result.url` is falsy in both `if` conditions of
`solve_chain` lines 43-52.  So "sets the current URL to none exactly when
the verdict carries no next URL" fails at `url = some ""`. -/
theorem decideNextUrl_empty_url_halts :
    decideNextUrl ⟨false, some "", none⟩ = none ∧
      (QuizResponse.mk false (some "") none).url ≠ none := by
  exact ⟨rfl, by simp⟩

/-- Claim C6, amended: after the per-question attempts finish, the loop
advances the current URL to the verdict's next URL whenever that URL is
truthy (present AND non-empty), regardless of whether the verdict is
correct, and sets the current URL to none exactly when the verdict's URL
is `None` or the empty string.  The decision is independent of the
correctness flag, and one guard-passing loop iteration continues with
exactly `decideNextUrl` of the final attempt verdict. -/
theorem decideNextUrl_spec (r : QuizResponse) :
    ((r.url.getD "" ≠ "") → decideNextUrl r = r.url) ∧
    ((r.url.getD "" = "") → decideNextUrl r = none) ∧
    (decideNextUrl ⟨true, r.url, r.reason⟩ =
      decideNextUrl ⟨false, r.url, r.reason⟩) ∧
    (∀ (env : ChainEnv) (startTime : ℚ) (url : String) (k fuel : Nat)
        (q : ParsedQuestion),
      url ≠ "" → ¬ env.timeAt k - startTime > 180 →
      (env.iter k).question = some q →
      solveChain env startTime (some url) k (fuel + 1) =
        (ChainEvent.fetchPage url ::
          ((solveWithRetries (env.iter k).verdict
              (processResources q.resources (env.iter k).headersRes
                (env.iter k).fetch)).2.map
            (fun p => ChainEvent.reasonStep p.1 p.2)) ++
          (solveChain env startTime
            (decideNextUrl (solveWithRetries (env.iter k).verdict
              (processResources q.resources (env.iter k).headersRes
                (env.iter k).fetch)).1) (k + 1) fuel).1,
         (solveChain env startTime
            (decideNextUrl (solveWithRetries (env.iter k).verdict
              (processResources q.resources (env.iter k).headersRes
                (env.iter k).fetch)).1) (k + 1) fuel).2)) := by
  refine ⟨?_, ?_, ?_, ?_⟩
  · intro h
    rcases r with ⟨c, u, re⟩
    cases c <;> simp_all [decideNextUrl]
  · intro h
    rcases r with ⟨c, u, re⟩
    cases c <;> simp_all [decideNextUrl]
  · rcases r with ⟨c, u, re⟩
    by_cases hu : u.getD "" = "" <;> simp [decideNextUrl, hu]
  · intro env startTime url k fuel q hu ht hq
    have ht2 : isTimedOut (env.timeAt k) startTime = false := by
      simp [isTimedOut, ht]
    simp [solveChain, hu, ht2, hq]

/-- Witness for `decideNextUrl_spec` at a concrete incorrect verdict that
carries a non-empty next URL: the chain advances to it. -/
theorem decideNextUrl_spec_witness :
    ((QuizResponse.mk false (some "http://next") none).url.getD "" ≠ "") ∧
    decideNextUrl ⟨false, some "http://next", none⟩ = some "http://next" :=
  ⟨by decide, (decideNextUrl_spec ⟨false, some "http://next", none⟩).1 (by decide)⟩

/-- Every line of a newline-join occurs contiguously in the join. -/
theorem strInfix_of_mem_joinLines (s : String) (l : List String) (h : s ∈ l) :
    strInfix s (joinLines l) := by
  induction l with
  | nil => cases h
  | cons a rest ih =>
    cases rest with
    | nil =>
      have hsa : s = a := by simpa using h
      subst hsa
      exact ⟨[], [], by simp [joinLines]⟩
    | cons b t =>
      have hj : joinLines (a :: b :: t) = a ++ ("\x0a" ++ joinLines (b :: t)) := by
        simp [joinLines, String.append_assoc]
      rcases List.mem_cons.mp h with h1 | h1
      · subst h1
        refine ⟨[], ("\x0a" ++ joinLines (b :: t)).data, ?_⟩
        rw [hj]
        simp [strInfix, String.data_append]
      · obtain ⟨p, q, hpq⟩ := ih h1
        refine ⟨(a ++ "\x0a").data ++ p, q, ?_⟩
        rw [hj]
        simp only [String.data_append, List.append_assoc]
        rw [← hpq]
        simp [List.append_assoc]

/-- The first reasoning attempt is always among the attempt events, and it
is handed the context string. -/
theorem mem_solveWithRetries_events (v : Nat → QuizResponse) (ctx : String) :
    (0, ctx) ∈ (solveWithRetries v ctx).2 := by
  simp only [solveWithRetries]
  split_ifs <;> simp

/-- Claim C5: resource isolation.  If fetching resource `A` fails (raises
`e`) and fetching resource `B` succeeds with content `c`, then the context
string built by `_process_resources` contains `B`'s content line and an
inline error note naming `A` (with the error text); entries of resources
other than `A` are unaffected by what happens to `A` (changing the fetch
outcome of `A` alone changes no other resource's block); and a
guard-passing loop iteration whose question parsed still reaches the
reasoning step, handing it exactly that context string — a per-resource
failure never aborts the chain. -/
theorem processResources_isolation (resources : List String)
    (headersRes : Except String (List (String × String)))
    (fetch : String → Except String String) (A B e c : String)
    (hA : A ∈ resources) (hB : B ∈ resources)
    (hfA : fetch A = .error e) (hfB : fetch B = .ok c) :
    strInfix ("Content: " ++ c) (processResources resources headersRes fetch) ∧
    strInfix ("Error fetching " ++ A ++ ": " ++ e)
      (processResources resources headersRes fetch) ∧
    (∀ fetch2 : String → Except String String,
      (∀ u, u ≠ A → fetch2 u = fetch u) →
      ∀ h2 u, u ∈ resources → u ≠ A →
        resourceBlock h2 fetch2 u = resourceBlock h2 fetch u) ∧
    (∀ (env : ChainEnv) (startTime : ℚ) (url : String) (k fuel : Nat)
        (q : ParsedQuestion), url ≠ "" →
      ¬ env.timeAt k - startTime > 180 →
      (env.iter k).question = some q → q.resources = resources →
      (env.iter k).headersRes = headersRes → (env.iter k).fetch = fetch →
      ChainEvent.reasonStep 0 (processResources resources headersRes fetch) ∈
        (solveChain env startTime (some url) k (fuel + 1)).1) := by
  have hne : resources.isEmpty = false := by
    cases resources with
    | nil => cases hA
    | cons x xs => rfl
  have hPR : processResources resources headersRes fetch =
      joinLines ("EXTERNAL RESOURCES:" ::
        (resources.flatMap (resourceBlock
          (match headersRes with | .ok h => h | .error _ => []) fetch))) := by
    simp [processResources, hne]
  refine ⟨?_, ?_, ?_, ?_⟩
  · rw [hPR]
    apply strInfix_of_mem_joinLines
    apply List.mem_cons_of_mem
    apply List.mem_flatMap.mpr
    refine ⟨B, hB, ?_⟩
    simp [resourceBlock, hfB]
  · rw [hPR]
    apply strInfix_of_mem_joinLines
    apply List.mem_cons_of_mem
    apply List.mem_flatMap.mpr
    refine ⟨A, hA, ?_⟩
    simp [resourceBlock, hfA]
  · intro fetch2 hagree h2 u hu hne2
    simp [resourceBlock, hagree u hne2]
  · intro env startTime url k fuel q hu ht hq hres hhdr hftch
    have ht2 : isTimedOut (env.timeAt k) startTime = false := by
      simp [isTimedOut, ht]
    simp only [solveChain, hu, ht2, hq]
    simp only [if_neg hu, Bool.false_eq_true, if_false]
    rw [hres, hhdr, hftch]
    refine List.mem_cons_of_mem _ ?_
    apply List.mem_append_left
    apply List.mem_map.mpr
    exact ⟨(0, processResources resources headersRes fetch),
      mem_solveWithRetries_events _ _, rfl⟩

/-- Witness for `processResources_isolation` at concrete resources
`A = "http://a.csv"` (failing) and `B = "http://b.csv"` (succeeding). -/
theorem processResources_isolation_witness :
    ("http://a.csv" : String) ∈ ["http://a.csv", "http://b.csv"] ∧
    ("http://b.csv" : String) ∈ ["http://a.csv", "http://b.csv"] ∧
    (fun u => if u = "http://a.csv" then Except.error "boom"
      else Except.ok "payload") "http://a.csv" = Except.error ("boom" : String) ∧
    (fun u => if u = "http://a.csv" then Except.error "boom"
      else Except.ok "payload") "http://b.csv" = Except.ok ("payload" : String) ∧
    strInfix ("Content: " ++ "payload")
      (processResources ["http://a.csv", "http://b.csv"] (.ok [])
        (fun u => if u = "http://a.csv" then .error "boom"
          else .ok "payload")) ∧
    strInfix ("Error fetching " ++ "http://a.csv" ++ ": " ++ "boom")
      (processResources ["http://a.csv", "http://b.csv"] (.ok [])
        (fun u => if u = "http://a.csv" then .error "boom"
          else .ok "payload")) := by
  have h := processResources_isolation ["http://a.csv", "http://b.csv"] (.ok [])
    (fun u => if u = "http://a.csv" then .error "boom" else .ok "payload")
    "http://a.csv" "http://b.csv" "boom" "payload" (by simp) (by simp)
    (by simp) (by simp)
  exact ⟨by simp, by simp, by simp, by simp, h.1, h.2.1⟩

/-- Claim C7: attempt-window monotonicity.  The backend window tried for
attempt `i` is the slice starting at index 0 (length 2) for `i = 0`, at
index 1 (length 2) for `i = 1`, and at index 2 (to the end) for every
`i ≥ 2`; consequently the window start is non-decreasing in the attempt
index. -/
theorem modelsToTry_window_monotone {α : Type} (models : List α) (i : Nat) :
    modelsToTry models i =
      (models.drop (windowStart i)).take (windowLen models i) ∧
    windowStart i ≤ windowStart (i + 1) := by
  constructor
  · by_cases h0 : i = 0
    · subst h0
      simp [modelsToTry, windowStart, windowLen]
    · by_cases h1 : i = 1
      · subst h1
        simp [modelsToTry, windowStart, windowLen]
      · have h2 : ¬ i ≤ 1 := by omega
        simp only [modelsToTry, windowStart, windowLen, if_neg h0, if_neg h1,
          if_neg h2]
        rw [← List.length_drop, List.take_length]
  · by_cases h0 : i = 0
    · subst h0; simp [windowStart]
    · by_cases h1 : i = 1
      · subst h1; simp [windowStart]
      · have h2 : i + 1 ≠ 0 := by omega
        have h3 : i + 1 ≠ 1 := by omega
        simp [windowStart, h0, h1, h2, h3]

/-- Claim C9: for every input text the answer-kind classifier returns one
of NUMBER, STRING, JSON, BASE64_FILE — never BOOLEAN (each branch of
`_determine_answer_type` returns one of the other four kinds, and
boolean-sounding questions are deliberately mapped to STRING) — so the
BOOLEAN branch of `_parse_llm_response` is never selected for a kind
produced by the page-parsing pipeline. -/
theorem determineAnswerType_never_boolean (text : String) :
    determineAnswerType text ∈
      [AnswerType.NUMBER, .STRING, .JSON, .BASE64_FILE] ∧
    parseLlmResponseBranch (determineAnswerType text) ∈
      [RespBranch.numberBranch, .stringBranch, .jsonBranch, .base64Branch] := by
  unfold determineAnswerType
  dsimp only
  split_ifs <;> simp [parseLlmResponseBranch]

/-- Claim C10: when the ranked model list has fewer than three entries,
every attempt with index at least 2 gets the empty window `models[2:]`,
and `reason_about_question` falls off its model loop: it returns `None`,
invokes no backend, and never reaches the heuristic fallback. -/
theorem reasonAboutQuestion_small_model_list (models : List String)
    (attempt : Nat) (gen : String → Except String String)
    (feedbackOk : String → Bool) (t : AnswerType) (question context : String)
    (hm : models.length < 3) (ha : 2 ≤ attempt) :
    reasonAboutQuestion models attempt gen feedbackOk t question context =
      ⟨none, [], false⟩ := by
  have h0 : attempt ≠ 0 := by omega
  have h1 : attempt ≠ 1 := by omega
  have hwin : modelsToTry models attempt = ([] : List String) := by
    simp only [modelsToTry, if_neg h0, if_neg h1]
    apply List.drop_eq_nil_of_le
    omega
  simp [reasonAboutQuestion, hwin, reasonLoop]

/-- Witness for `reasonAboutQuestion_small_model_list`: a two-model engine
at attempt index 2. -/
theorem reasonAboutQuestion_small_model_list_witness :
    (["m1", "m2"] : List String).length < 3 ∧ 2 ≤ 2 ∧
    reasonAboutQuestion ["m1", "m2"] 2 (fun _ => .error "down")
      (fun _ => true) .STRING "q" "ctx" = ⟨none, [], false⟩ :=
  ⟨by decide, by decide,
    reasonAboutQuestion_small_model_list ["m1", "m2"] 2 (fun _ => .error "down")
      (fun _ => true) .STRING "q" "ctx" (by decide) (by decide)⟩

/-- The overwrite fold of the pattern loop keeps the first match of the
LAST matching pattern. -/
theorem headerValueFold_eq_last (name : String) (text : String)
    (pats : List (List Tok)) :
    headerValueFold name pats text = headerValueLastPattern name pats text := by
  induction pats using List.reverseRecOn with
  | nil => rfl
  | append_singleton rest p ih =>
    unfold headerValueFold headerValueLastPattern at ih ⊢
    rw [List.foldl_append, List.filterMap_append]
    rcases hm : (patFindall p text).head? with _ | m
    · simp only [List.foldl_cons, hm, List.foldl_nil]
      rw [ih]
      simp [hm]
    · simp only [List.foldl_cons, hm, List.foldl_nil]
      simp [hm, List.getLast?_concat]

/-- Claim C8, counterexample: on a text containing both
`Authorization: abc` and `Bearer xyz`, the FIRST matching pattern
(`Authorization:\s*...`) captures `abc`, but the later `Bearer\s+...`
pattern overwrites the entry — the `break` at `app/parser.py` line 173
only exits the innermost `for match in matches` loop, not the pattern
loop — so the code returns `Bearer xyz` where first-match-wins would
return `Bearer abc`. -/
theorem extractApiHeaders_not_first_pattern_wins :
    extractApiHeaders "Authorization: abc\x0aBearer xyz" =
      [("Authorization", "Bearer xyz")] ∧
    extractApiHeadersSpec "Authorization: abc\x0aBearer xyz" =
      [("Authorization", "Bearer abc")] ∧
    extractApiHeaders "Authorization: abc\x0aBearer xyz" ≠
      extractApiHeadersSpec "Authorization: abc\x0aBearer xyz" := by
  refine ⟨by decide, by decide, by decide⟩

/-- Claim C8, amended: for every input text `extract_api_headers` returns
at most one value per header name (its keys are pairwise distinct), the
value being the normalization of the first match of the LAST pattern in
that header's pattern list that matches anywhere in the text (the `break`
only exits the inner match loop, so later matching patterns overwrite
earlier ones); an Authorization match that does not already contain
"bearer" (case-insensitively) is stored "Bearer "-prefixed, and every
stored value is stripped. -/
theorem extractApiHeaders_last_pattern_wins (text : String) :
    ((extractApiHeaders text).map Prod.fst).Nodup ∧
    extractApiHeaders text = headerPatternList.filterMap (fun np =>
      (headerValueLastPattern np.1 np.2 text).map (fun v => (np.1, v))) := by
  constructor
  · rcases h1 : headerValueFold "Authorization" authorizationPatterns text
      with _ | v1 <;>
    rcases h2 : headerValueFold "X-API-Key" xApiKeyPatterns text with _ | v2 <;>
    rcases h3 : headerValueFold "Content-Type" contentTypePatterns text
      with _ | v3 <;>
    simp [extractApiHeaders, headerPatternList, h1, h2, h3]
  · simp only [extractApiHeaders, headerValueFold_eq_last]
